import Mathlib

/-!
Verification of the CMS-Detect pipeline (`bot_eshop_core.py`): domain
extraction from email addresses, website URL probing, CMS classification
from HTTP responses, per-row aggregation over a spreadsheet column, and
output-path computation.  Text is modelled as `List Char`, Python `None`
as `Option.none`, and the HTTP layer as an explicit fetch oracle.
-/

/-- Python `str.strip()` whitespace test (ASCII part): space, tab, newline,
carriage return, vertical tab, form feed. -/
def pyIsSpace (c : Char) : Bool :=
  c == ' ' || c == '\t' || c == '\n' || c == '\r' || c.toNat == 11 || c.toNat == 12

/-- Python `str.strip()`: drop whitespace from both ends. -/
def pyStrip (l : List Char) : List Char :=
  ((l.dropWhile pyIsSpace).reverse.dropWhile pyIsSpace).reverse

/-- Python `str.lower()` (ASCII letters). -/
def pyLower (l : List Char) : List Char :=
  l.map Char.toLower

/-- Python substring test `needle in hay`. -/
def containsSub (needle : List Char) : List Char → Bool
  | [] => needle.isEmpty
  | c :: rest => needle.isPrefixOf (c :: rest) || containsSub needle rest

/-- Python `s.split("@")`. -/
def pySplitOnAt : List Char → List (List Char)
  | [] => [[]]
  | c :: rest =>
    if c = '@' then [] :: pySplitOnAt rest
    else
      match pySplitOnAt rest with
      | [] => [[c]]
      | g :: gs => (c :: g) :: gs

/-- The fixed public email-provider exclusion set `GENERIC_EMAIL_DOMAINS`
from `bot_eshop_core.py`. -/
def GENERIC_EMAIL_DOMAINS : List (List Char) :=
  ["gmail.com".data, "outlook.com".data, "hotmail.com".data, "live.com".data,
   "yahoo.com".data, "icloud.com".data, "proton.me".data, "protonmail.com".data,
   "orange.fr".data, "free.fr".data, "skynet.be".data, "telenet.be".data, "sfr.fr".data,
   "gmx.com".data, "gmx.net".data]

/-- The chained `domain.replace(">", "").replace("<", "").replace(";", "").replace(",", "")`
cleanup from `extract_domain_from_email`. -/
def cleanDomain (d : List Char) : List Char :=
  (((d.filter (· != '>')).filter (· != '<')).filter (· != ';')).filter (· != ',')

/-- `extract_domain_from_email` from `bot_eshop_core.py`, on string input:
strip the email, require an `"@"` and exactly two `split("@")` parts, strip
and lowercase the part after the `"@"`, reject the empty string and members
of `GENERIC_EMAIL_DOMAINS`, then remove `>`, `<`, `;`, `,` and require a dot. -/
def extract_domain_from_email (email : List Char) : Option (List Char) :=
  if '@' ∈ pyStrip email then
    if (pySplitOnAt (pyStrip email)).length = 2 then
      if pyLower (pyStrip ((pySplitOnAt (pyStrip email)).getD 1 [])) = [] ∨
          pyLower (pyStrip ((pySplitOnAt (pyStrip email)).getD 1 [])) ∈ GENERIC_EMAIL_DOMAINS then
        none
      else
        if '.' ∈ cleanDomain (pyLower (pyStrip ((pySplitOnAt (pyStrip email)).getD 1 []))) then
          some (cleanDomain (pyLower (pyStrip ((pySplitOnAt (pyStrip email)).getD 1 []))))
        else none
    else none
  else none

/-! ### Helper lemmas about the text utilities -/

theorem count_dropWhile_pyIsSpace (c : Char) (hc : pyIsSpace c = false) :
    ∀ l : List Char, (l.dropWhile pyIsSpace).count c = l.count c := by
  intro l
  induction l with
  | nil => rfl
  | cons a t ih =>
    by_cases h : pyIsSpace a = true
    · have hne : a ≠ c := by
        intro he; rw [he, hc] at h; exact Bool.false_ne_true h
      rw [List.dropWhile_cons_of_pos h, ih, List.count_cons,
        if_neg (by simpa using hne), Nat.add_zero]
    · rw [List.dropWhile_cons_of_neg h]

theorem count_pyStrip (c : Char) (hc : pyIsSpace c = false) (l : List Char) :
    (pyStrip l).count c = l.count c := by
  unfold pyStrip
  rw [List.count_reverse, count_dropWhile_pyIsSpace c hc, List.count_reverse,
    count_dropWhile_pyIsSpace c hc]

theorem pySplitOnAt_ne_nil : ∀ l : List Char, pySplitOnAt l ≠ [] := by
  intro l
  cases l with
  | nil => simp [pySplitOnAt]
  | cons c rest =>
    unfold pySplitOnAt
    by_cases h : c = '@'
    · simp [h]
    · simp only [if_neg h]
      cases pySplitOnAt rest <;> simp

theorem length_pySplitOnAt : ∀ l : List Char, (pySplitOnAt l).length = l.count '@' + 1 := by
  intro l
  induction l with
  | nil => rfl
  | cons c rest ih =>
    unfold pySplitOnAt
    by_cases h : c = '@'
    · subst h
      simp only [if_pos rfl, if_true, List.length_cons, List.count_cons_self, ih]
    · simp only [if_neg h]
      obtain ⟨g, gs, hg⟩ : ∃ g gs, pySplitOnAt rest = g :: gs := by
        cases hr : pySplitOnAt rest with
        | nil => exact absurd hr (pySplitOnAt_ne_nil rest)
        | cons g gs => exact ⟨g, gs, rfl⟩
      rw [hg]
      simp only [List.length_cons]
      rw [hg] at ih
      simp only [List.length_cons] at ih
      rw [ih, List.count_cons, if_neg (by simpa using h), Nat.add_zero]

theorem cleanDomain_of_generic :
    ∀ d ∈ GENERIC_EMAIL_DOMAINS, cleanDomain d = d := by decide

/-! ### Claim C1 -/

/-- C1 (counterexample): the claim says that any email whose part after the
`"@"`, once trimmed, lowercased and stripped of `>`, `<`, `;`, `,`, matches a
public-provider entry yields `none`, and that a returned domain is never a
provider entry.  The input `"user@gmail.com;"` refutes both parts: the
cleaned part is `"gmail.com"`, a provider entry, yet the function returns
`some "gmail.com"`. -/
theorem extract_domain_generic_strip_order_counterexample :
    cleanDomain (pyLower (pyStrip ((pySplitOnAt (pyStrip "user@gmail.com;".data)).getD 1 [])))
        ∈ GENERIC_EMAIL_DOMAINS ∧
      extract_domain_from_email "user@gmail.com;".data = some "gmail.com".data ∧
      "gmail.com".data ∈ GENERIC_EMAIL_DOMAINS := by
  refine ⟨by decide, by decide, by decide⟩

/-- C1 (amended): the provider check is applied to the trimmed, lowercased
part after the `"@"` before the characters `>`, `<`, `;`, `,` are stripped:
whenever that pre-strip value exactly matches a provider entry the function
returns `none`. -/
theorem extract_domain_generic_rejected (e : List Char)
    (h : pyLower (pyStrip ((pySplitOnAt (pyStrip e)).getD 1 [])) ∈ GENERIC_EMAIL_DOMAINS) :
    extract_domain_from_email e = none := by
  unfold extract_domain_from_email
  by_cases h1 : '@' ∈ pyStrip e
  · by_cases h2 : (pySplitOnAt (pyStrip e)).length = 2
    · rw [if_pos h1, if_pos h2, if_pos (Or.inr h)]
    · rw [if_pos h1, if_neg h2]
  · rw [if_neg h1]

/-- Witness for the amended C1 at the concrete input `"user@gmail.com"`. -/
theorem extract_domain_generic_rejected_witness :
    pyLower (pyStrip ((pySplitOnAt (pyStrip "user@gmail.com".data)).getD 1 []))
        ∈ GENERIC_EMAIL_DOMAINS ∧
      extract_domain_from_email "user@gmail.com".data = none :=
  ⟨by decide, extract_domain_generic_rejected "user@gmail.com".data (by decide)⟩

/-! ### Claim C7 -/

/-- C7: for every string with exactly one `"@"` whose part after the `"@"`
(after trimming, lowercasing, and stripping `>`, `<`, `;`, `,`) is non-empty,
contains a dot, and is not a public-provider entry,
`extract_domain_from_email` returns that cleaned lowercase domain. -/
theorem extract_domain_valid_spec (e : List Char) (h1 : e.count '@' = 1)
    (hne : cleanDomain (pyLower (pyStrip ((pySplitOnAt (pyStrip e)).getD 1 []))) ≠ [])
    (hdot : '.' ∈ cleanDomain (pyLower (pyStrip ((pySplitOnAt (pyStrip e)).getD 1 []))))
    (hgen :
      cleanDomain (pyLower (pyStrip ((pySplitOnAt (pyStrip e)).getD 1 [])))
        ∉ GENERIC_EMAIL_DOMAINS) :
    extract_domain_from_email e =
      some (cleanDomain (pyLower (pyStrip ((pySplitOnAt (pyStrip e)).getD 1 [])))) := by
  have hc : (pyStrip e).count '@' = 1 := by
    rw [count_pyStrip '@' (by decide) e]; exact h1
  have hmem : '@' ∈ pyStrip e := by
    by_contra hn
    rw [List.count_eq_zero.mpr hn] at hc
    exact absurd hc (by decide)
  have hlen : (pySplitOnAt (pyStrip e)).length = 2 := by
    rw [length_pySplitOnAt, hc]
  have hguard :
      ¬(pyLower (pyStrip ((pySplitOnAt (pyStrip e)).getD 1 [])) = [] ∨
        pyLower (pyStrip ((pySplitOnAt (pyStrip e)).getD 1 [])) ∈ GENERIC_EMAIL_DOMAINS) := by
    rintro (h0 | h0)
    · exact hne (by rw [h0]; rfl)
    · exact hgen (by rw [cleanDomain_of_generic _ h0]; exact h0)
  unfold extract_domain_from_email
  rw [if_pos hmem, if_pos hlen, if_neg hguard, if_pos hdot]

/-- Witness for C7 at the concrete input `"contact@MonSite.COM;"`, whose
cleaned domain is `"monsite.com"`. -/
theorem extract_domain_valid_spec_witness :
    "contact@MonSite.COM;".data.count '@' = 1 ∧
      extract_domain_from_email "contact@MonSite.COM;".data = some "monsite.com".data := by
  have h := extract_domain_valid_spec "contact@MonSite.COM;".data
    (by decide) (by decide) (by decide) (by decide)
  refine ⟨by decide, ?_⟩
  rw [h]
  decide

/-! ### HTTP layer model and `guess_website_url` -/

/-- A `requests.Response` as the pipeline observes it: final status code,
body text (`resp.text`), headers, and final post-redirect URL (`resp.url`),
each of the last three possibly `None`. -/
structure PyResponse where
  statusCode : Nat
  text : Option (List Char)
  headers : Option (List (List Char × List Char))
  url : Option (List Char)
deriving DecidableEq

/-- The scheme list of `guess_website_url` (https first). -/
def schemes : List (List Char) := ["https://".data, "http://".data]

/-- The host-part variants of `guess_website_url` (bare domain first). -/
def prefixes : List (List Char) := ["".data, "www.".data]

/-- The loop body of `guess_website_url`: try each candidate URL against the
fetch oracle (`none` models a raised `requests.RequestException`, which the
loop swallows with `continue`), returning `(resp.url, resp)` for the first
response whose status code is in `[200, 400)` and whose body is not `None`. -/
def tryUrls (fetch : List Char → Option PyResponse) :
    List (List Char) → Option (List Char) × Option PyResponse
  | [] => (none, none)
  | u :: rest =>
    match fetch u with
    | none => tryUrls fetch rest
    | some resp =>
      if 200 ≤ resp.statusCode ∧ resp.statusCode < 400 ∧ resp.text ≠ none then
        (resp.url, some resp)
      else tryUrls fetch rest

/-- `guess_website_url` from `bot_eshop_core.py`: for an empty (falsy) domain
return `(None, None)`; otherwise run the nested scheme/host-variant loops on
`scheme + prefix + domain` and return the first qualifying hit. -/
def guess_website_url (fetch : List Char → Option PyResponse) (domain : List Char) :
    Option (List Char) × Option PyResponse :=
  if domain = [] then (none, none)
  else tryUrls fetch (schemes.flatMap (fun s => prefixes.map (fun p => s ++ p ++ domain)))

/-- Modelled from the spec: the four candidate URLs in the contract's fixed
order `https://domain`, `https://www.domain`, `http://domain`,
`http://www.domain`. -/
def specCandidateUrls (domain : List Char) : List (List Char) :=
  ["https://".data ++ domain, "https://www.".data ++ domain,
   "http://".data ++ domain, "http://www.".data ++ domain]

/-- Modelled from the spec: the first attempt whose final status code is in
`[200, 400)` with a non-null body; transport-level failures are skipped. -/
def specFirstSuccess (fetch : List Char → Option PyResponse) :
    List (List Char) → Option PyResponse
  | [] => none
  | u :: rest =>
    match fetch u with
    | none => specFirstSuccess fetch rest
    | some r =>
      if 200 ≤ r.statusCode ∧ r.statusCode < 400 ∧ r.text ≠ none then some r
      else specFirstSuccess fetch rest

/-- Modelled from the spec: probing returns the first qualifying attempt's
final URL and response, or "no result" `(none, none)`. -/
def specProbe (fetch : List Char → Option PyResponse) (domain : List Char) :
    Option (List Char) × Option PyResponse :=
  match specFirstSuccess fetch (specCandidateUrls domain) with
  | some r => (r.url, some r)
  | none => (none, none)

theorem tryUrls_eq_specFirstSuccess (fetch : List Char → Option PyResponse) :
    ∀ urls : List (List Char),
      tryUrls fetch urls =
        match specFirstSuccess fetch urls with
        | some r => (r.url, some r)
        | none => (none, none) := by
  intro urls
  induction urls with
  | nil => rfl
  | cons u rest ih =>
    unfold tryUrls specFirstSuccess
    cases hf : fetch u with
    | none => exact ih
    | some r =>
      dsimp only
      by_cases h : 200 ≤ r.statusCode ∧ r.statusCode < 400 ∧ r.text ≠ none
      · rw [if_pos h, if_pos h]
      · rw [if_neg h, if_neg h]
        exact ih

theorem flatMap_candidate_urls (domain : List Char) :
    schemes.flatMap (fun s => prefixes.map (fun p => s ++ p ++ domain)) =
      specCandidateUrls domain := by
  have h0 : "".data = ([] : List Char) := rfl
  have h1 : "https://".data ++ "www.".data = "https://www.".data := rfl
  have h2 : "http://".data ++ "www.".data = "http://www.".data := rfl
  simp only [schemes, prefixes, specCandidateUrls, List.flatMap_cons, List.flatMap_nil,
    List.map_cons, List.map_nil, List.append_nil, h0, List.cons_append, List.nil_append,
    List.cons.injEq, h1, h2]

/-! ### Claim C2 -/

/-- C2: for every fetch oracle and non-empty (validated) domain,
`guess_website_url` realises the spec'd probe contract exactly: the four
candidate URLs are attempted in the fixed order https/bare, https/www,
http/bare, http/www; the first attempt whose status code lies in
`[200, 400)` with a non-null body yields its final URL and response;
transport-level failures are swallowed and the loop proceeds; and
`(none, none)` is returned when no attempt qualifies. -/
theorem guess_website_url_spec (fetch : List Char → Option PyResponse)
    (domain : List Char) (h : domain ≠ []) :
    guess_website_url fetch domain = specProbe fetch domain := by
  unfold guess_website_url specProbe
  rw [if_neg h, flatMap_candidate_urls, tryUrls_eq_specFirstSuccess]

/-- Concrete fetch oracle for the C2 witness: the first attempt raises a
transport error, the second responds 500, the third responds 200. -/
def fetchC2 : List Char → Option PyResponse := fun u =>
  if u = "https://www.example.com".data then
    some ⟨500, some "oops".data, none, some "https://www.example.com/".data⟩
  else if u = "http://example.com".data then
    some ⟨200, some "hello".data, none, some "http://example.com/".data⟩
  else none

/-- Witness for C2: on `"example.com"` with `fetchC2`, the probe skips the
failed and non-qualifying attempts and returns the third candidate's final
URL and response. -/
theorem guess_website_url_spec_witness :
    "example.com".data ≠ [] ∧
      guess_website_url fetchC2 "example.com".data = specProbe fetchC2 "example.com".data ∧
      guess_website_url fetchC2 "example.com".data =
        (some "http://example.com/".data,
          some ⟨200, some "hello".data, none, some "http://example.com/".data⟩) :=
  ⟨by decide, guess_website_url_spec fetchC2 "example.com".data (by decide), by decide⟩

/-! ### `detect_cms_from_response` -/

/-- The lowercased body text `(resp.text or "").lower()`. -/
def respHtml (r : PyResponse) : List Char := pyLower (r.text.getD [])

/-- The lowercased header mapping
`{k.lower(): str(v).lower() for k, v in (resp.headers or {}).items()}`. -/
def respHeaders (r : PyResponse) : List (List Char × List Char) :=
  (r.headers.getD []).map (fun kv => (pyLower kv.1, pyLower kv.2))

/-- The lowercased final URL `(resp.url or "").lower()`. -/
def respUrl (r : PyResponse) : List Char := pyLower (r.url.getD [])

/-- Python dict key membership `k in headers`. -/
def headerHasKey (hs : List (List Char × List Char)) (k : List Char) : Bool :=
  hs.any (fun kv => kv.1 == k)

/-- Python dict lookup `headers.get(k, "")`, a later duplicate key
overriding an earlier one as in a dict comprehension. -/
def headerGet (hs : List (List Char × List Char)) (k : List Char) : List Char :=
  match hs.reverse.find? (fun kv => kv.1 == k) with
  | some kv => kv.2
  | none => []

/-- The Shopify marker set from `detect_cms_from_response`. -/
def shopifyHit (r : PyResponse) : Bool :=
  containsSub "cdn.shopify.com".data (respHtml r) ||
    containsSub "shopify-checkout".data (respHtml r) ||
    containsSub "myshopify.com".data (respUrl r) ||
    headerHasKey (respHeaders r) "x-shopify-stage".data

/-- The Wix marker set from `detect_cms_from_response`. -/
def wixHit (r : PyResponse) : Bool :=
  containsSub "wixstatic.com".data (respHtml r) ||
    containsSub "wix.com".data (respHtml r) ||
    headerHasKey (respHeaders r) "x-wix-request-id".data

/-- The Odoo marker set from `detect_cms_from_response`. -/
def odooHit (r : PyResponse) : Bool :=
  containsSub "web.assets_frontend".data (respHtml r) ||
    containsSub "/web/content/".data (respHtml r) ||
    containsSub "meta name=\"generator\" content=\"odoo\"".data (respHtml r) ||
    containsSub "odoo".data (headerGet (respHeaders r) "set-cookie".data)

/-- The WordPress marker set from `detect_cms_from_response`. -/
def wordpressHit (r : PyResponse) : Bool :=
  containsSub "/wp-content/".data (respHtml r) ||
    containsSub "/wp-includes/".data (respHtml r) ||
    containsSub "wp-json".data (respHtml r) ||
    containsSub "meta name=\"generator\" content=\"wordpress".data (respHtml r)

/-- The PrestaShop marker set from `detect_cms_from_response`. -/
def prestashopHit (r : PyResponse) : Bool :=
  containsSub "prestashop".data (respHtml r) ||
    containsSub "powered by prestashop".data (respHtml r)

/-- The Squarespace marker set from `detect_cms_from_response`. -/
def squarespaceHit (r : PyResponse) : Bool :=
  containsSub "static1.squarespace.com".data (respHtml r) ||
    containsSub "squarespace.com".data (respHtml r)

/-- `detect_cms_from_response` from `bot_eshop_core.py`: `None` maps to
"Unknown / No site"; otherwise the marker sets are tested in the order
Shopify, Wix, Odoo, WordPress (refined by "woocommerce"), PrestaShop,
Squarespace, with "Unknown / Custom" as the default. -/
def detect_cms_from_response : Option PyResponse → String
  | none => "Unknown / No site"
  | some r =>
    if shopifyHit r then "Shopify"
    else if wixHit r then "Wix"
    else if odooHit r then "Odoo"
    else if wordpressHit r then
      if containsSub "woocommerce".data (respHtml r) then "WordPress + WooCommerce"
      else "WordPress"
    else if prestashopHit r then "PrestaShop"
    else if squarespaceHit r then "Squarespace"
    else "Unknown / Custom"

/-- Modelled from the spec: the ordered marker table, first match wins. -/
def specMarkerTable (r : PyResponse) : List (Bool × String) :=
  [(shopifyHit r, "Shopify"),
   (wixHit r, "Wix"),
   (odooHit r, "Odoo"),
   (wordpressHit r,
     if containsSub "woocommerce".data (respHtml r) then "WordPress + WooCommerce"
     else "WordPress"),
   (prestashopHit r, "PrestaShop"),
   (squarespaceHit r, "Squarespace")]

/-- Modelled from the spec: take the first matching entry's label, with no
fallthrough, defaulting to "Unknown / Custom". -/
def firstMatchLabel : List (Bool × String) → String
  | [] => "Unknown / Custom"
  | (b, lab) :: rest => if b then lab else firstMatchLabel rest

theorem detect_cms_some_mem (r : PyResponse) :
    detect_cms_from_response (some r) ∈
      ["Shopify", "Wix", "Odoo", "WordPress + WooCommerce", "WordPress",
       "PrestaShop", "Squarespace", "Unknown / Custom"] := by
  simp only [detect_cms_from_response]
  split_ifs <;> simp

theorem detect_cms_some_ne_nosite (r : PyResponse) :
    detect_cms_from_response (some r) ≠ "Unknown / No site" := by
  intro h
  have hm := detect_cms_some_mem r
  rw [h] at hm
  exact absurd hm (by decide)

theorem detect_cms_some_ne_nodomain (r : PyResponse) :
    detect_cms_from_response (some r) ≠ "No domain / Generic email" := by
  intro h
  have hm := detect_cms_some_mem r
  rw [h] at hm
  exact absurd hm (by decide)

/-! ### Claim C3 -/

/-- C3: `detect_cms_from_response` maps "no result" (`none`) to
"Unknown / No site"; otherwise it equals the spec's ordered first-match
classification over the marker sets Shopify, Wix, Odoo, WordPress,
PrestaShop, Squarespace with default "Unknown / Custom"; and every response
whose body contains "cdn.shopify.com" is labelled "Shopify" regardless of
any other markers in the body. -/
theorem detect_cms_priority_spec :
    detect_cms_from_response none = "Unknown / No site" ∧
      (∀ r : PyResponse,
        detect_cms_from_response (some r) = firstMatchLabel (specMarkerTable r)) ∧
      (∀ r : PyResponse, containsSub "cdn.shopify.com".data (respHtml r) = true →
        detect_cms_from_response (some r) = "Shopify") := by
  refine ⟨rfl, fun r => rfl, fun r h => ?_⟩
  have hs : shopifyHit r = true := by
    unfold shopifyHit
    rw [h]
    rfl
  simp [detect_cms_from_response, hs]

/-- Response for the C3 witness: a body holding both the Shopify CDN marker
and a WordPress marker. -/
def respShopifyWp : PyResponse :=
  ⟨200, some "<script src=cdn.shopify.com/x></script> /wp-content/ woocommerce".data,
   none, some "https://shop.example".data⟩

/-- Witness for C3: on `respShopifyWp` the Shopify check fires first even
though WordPress markers are present in the body. -/
theorem detect_cms_priority_spec_witness :
    containsSub "cdn.shopify.com".data (respHtml respShopifyWp) = true ∧
      detect_cms_from_response (some respShopifyWp) = "Shopify" :=
  ⟨by decide, detect_cms_priority_spec.2.2 respShopifyWp (by decide)⟩

/-! ### Claim C8 -/

/-- Response refuting C8 as stated: the body matches a WordPress marker but
also the Shopify CDN marker, which has priority. -/
def respWpShadowed : PyResponse :=
  ⟨200, some "/wp-content/ plus cdn.shopify.com".data, none, none⟩

/-- C8 (counterexample): the claim quantifies over every response whose body
matches a WordPress marker, but an earlier marker set can win:
`respWpShadowed` matches "/wp-content/" and contains no "woocommerce", yet
is labelled "Shopify", not "WordPress". -/
theorem wordpress_marker_counterexample :
    wordpressHit respWpShadowed = true ∧
      containsSub "woocommerce".data (respHtml respWpShadowed) = false ∧
      detect_cms_from_response (some respWpShadowed) = "Shopify" ∧
      detect_cms_from_response (some respWpShadowed) ≠ "WordPress" := by
  refine ⟨by decide, by decide, by decide, by decide⟩

/-- C8 (amended): for every response whose lowercased body matches a
WordPress marker and which matches none of the earlier Shopify, Wix, or Odoo
marker sets, the label is "WordPress + WooCommerce" when the body also
contains "woocommerce" and "WordPress" otherwise. -/
theorem wordpress_label_refined (r : PyResponse) (hwp : wordpressHit r = true)
    (hs : shopifyHit r = false) (hw : wixHit r = false) (ho : odooHit r = false) :
    detect_cms_from_response (some r) =
      if containsSub "woocommerce".data (respHtml r) then "WordPress + WooCommerce"
      else "WordPress" := by
  simp [detect_cms_from_response, hs, hw, ho, hwp]

/-- Response for the C8 witness: WordPress and WooCommerce markers only. -/
def respWoo : PyResponse :=
  ⟨200, some "/wp-content/themes woocommerce cart".data, none, none⟩

/-- Witness for the amended C8 at `respWoo`. -/
theorem wordpress_label_refined_witness :
    wordpressHit respWoo = true ∧
      detect_cms_from_response (some respWoo) =
        (if containsSub "woocommerce".data (respHtml respWoo) then
          "WordPress + WooCommerce" else "WordPress") ∧
      detect_cms_from_response (some respWoo) = "WordPress + WooCommerce" :=
  ⟨by decide, wordpress_label_refined respWoo (by decide) (by decide) (by decide) (by decide),
    by decide⟩

/-! ### Claim C10 -/

/-- C10: `detect_cms_from_response` is total over every response shape at
its interface: a `None` response, a `None` body, an absent headers mapping
and a `None` URL are all handled, and the result is always one of the nine
fixed labels the classifier can produce. -/
theorem detect_cms_total :
    (∀ resp : Option PyResponse,
      detect_cms_from_response resp ∈
        ["Unknown / No site", "Shopify", "Wix", "Odoo", "WordPress + WooCommerce",
         "WordPress", "PrestaShop", "Squarespace", "Unknown / Custom"]) ∧
      detect_cms_from_response none = "Unknown / No site" ∧
      detect_cms_from_response (some ⟨0, none, none, none⟩) = "Unknown / Custom" ∧
      detect_cms_from_response (some ⟨200, some [], none, none⟩) = "Unknown / Custom" := by
  refine ⟨fun resp => ?_, rfl, by decide, by decide⟩
  cases resp with
  | none => simp [detect_cms_from_response]
  | some r => exact List.mem_cons_of_mem _ (detect_cms_some_mem r)

/-! ### Row pipeline -/

/-- A spreadsheet cell as `detect_cms_for_email_with_url` sees it: either a
missing value (`pd.isna`) or a value whose Python `str()` form is the given
character list. -/
inductive CellValue where
  | na : CellValue
  | val : List Char → CellValue
deriving DecidableEq

/-- The coercion `email_str = "" if pd.isna(email) else str(email).strip()`. -/
def emailStrOfCell : CellValue → List Char
  | .na => []
  | .val s => pyStrip s

/-- `detect_cms_for_email_with_url` from `bot_eshop_core.py`: no domain maps
to `("No domain / Generic email", "")`; a failed probe (either component
`None`) maps to `("Unknown / No site", "")`; otherwise classify the response
and return the probe's final URL. -/
def detect_cms_for_email_with_url (fetch : List Char → Option PyResponse)
    (email : CellValue) : String × List Char :=
  match extract_domain_from_email (emailStrOfCell email) with
  | none => ("No domain / Generic email", [])
  | some domain =>
    match guess_website_url fetch domain with
    | (some url, some resp) => (detect_cms_from_response (some resp), url)
    | _ => ("Unknown / No site", [])

/-- A raised Python exception: its type name and message. -/
structure PyExn where
  kind : List Char
  msg : List Char
deriving DecidableEq

/-- The recorded detail string `f"{type(e).__name__}: {e}"`. -/
def exnDetail (ex : PyExn) : List Char := ex.kind ++ ": ".data ++ ex.msg

/-- One loop iteration of `process_dataframe`: the row computation either
returns `(cms, final_url)` — recorded with an empty `error_detail` — or
raises, in which case the row records `("Error", "", detail)`. -/
def rowRecord (rowFn : CellValue → Except PyExn (String × List Char))
    (email : CellValue) : String × List Char × List Char :=
  match rowFn email with
  | .ok r => (r.1, r.2, [])
  | .error ex => ("Error", [], exnDetail ex)

/-- The three result columns accumulated by `process_dataframe`
(`cms_detected`, `detected_url`, `error_detail`), one entry appended per row
of the located email column. -/
def process_dataframe (rowFn : CellValue → Except PyExn (String × List Char)) :
    List CellValue → List String × List (List Char) × List (List Char)
  | [] => ([], [], [])
  | e :: rest =>
    ((rowRecord rowFn e).1 :: (process_dataframe rowFn rest).1,
     (rowRecord rowFn e).2.1 :: (process_dataframe rowFn rest).2.1,
     (rowRecord rowFn e).2.2 :: (process_dataframe rowFn rest).2.2)

theorem process_dataframe_eq_maps (rowFn : CellValue → Except PyExn (String × List Char))
    (rows : List CellValue) :
    process_dataframe rowFn rows =
      (rows.map (fun e => (rowRecord rowFn e).1),
       rows.map (fun e => (rowRecord rowFn e).2.1),
       rows.map (fun e => (rowRecord rowFn e).2.2)) := by
  induction rows with
  | nil => rfl
  | cons e rest ih => simp [process_dataframe, ih]

theorem exnDetail_ne_nil (ex : PyExn) : exnDetail ex ≠ [] := by
  intro h
  have hlen := congrArg List.length h
  have h2 : (": ".data).length = 2 := rfl
  simp only [exnDetail, List.length_append, List.length_nil, h2] at hlen
  omega

/-! ### Claim C4 -/

/-- C4: `process_dataframe` produces exactly one entry per input row in each
of the three result columns, the column lengths equal the input row count,
and the entry at every index is a function of the input row at that same
index alone (original order, no cross-row influence). -/
theorem process_dataframe_row_aligned
    (rowFn : CellValue → Except PyExn (String × List Char)) (rows : List CellValue) :
    (process_dataframe rowFn rows).1.length = rows.length ∧
      (process_dataframe rowFn rows).2.1.length = rows.length ∧
      (process_dataframe rowFn rows).2.2.length = rows.length ∧
      (∀ i : Nat, (process_dataframe rowFn rows).1[i]? =
        (rows[i]?).map (fun e => (rowRecord rowFn e).1)) ∧
      (∀ i : Nat, (process_dataframe rowFn rows).2.1[i]? =
        (rows[i]?).map (fun e => (rowRecord rowFn e).2.1)) ∧
      (∀ i : Nat, (process_dataframe rowFn rows).2.2[i]? =
        (rows[i]?).map (fun e => (rowRecord rowFn e).2.2)) := by
  rw [process_dataframe_eq_maps]
  refine ⟨by simp, by simp, by simp, fun i => ?_, fun i => ?_, fun i => ?_⟩ <;>
    simp [List.getElem?_map]

/-! ### Claim C5 -/

/-- C5: a row whose computation raises is caught at row granularity and
recorded as label "Error", empty url, and the non-empty detail
`"<kind>: <message>"`; rows that do not raise get an empty error detail; and
processing continues over all rows regardless. -/
theorem process_dataframe_error_rows
    (rowFn : CellValue → Except PyExn (String × List Char)) (rows : List CellValue)
    (i : Nat) (e : CellValue) (he : rows[i]? = some e) :
    (∀ ex : PyExn, rowFn e = Except.error ex →
      (process_dataframe rowFn rows).1[i]? = some "Error" ∧
        (process_dataframe rowFn rows).2.1[i]? = some [] ∧
        (process_dataframe rowFn rows).2.2[i]? = some (exnDetail ex) ∧
        exnDetail ex ≠ []) ∧
      (∀ r : String × List Char, rowFn e = Except.ok r →
        (process_dataframe rowFn rows).2.2[i]? = some []) ∧
      (process_dataframe rowFn rows).1.length = rows.length := by
  rw [process_dataframe_eq_maps]
  refine ⟨fun ex hex => ?_, fun r hr => ?_, by simp⟩
  · refine ⟨?_, ?_, ?_, exnDetail_ne_nil ex⟩ <;>
      simp [List.getElem?_map, he, rowRecord, hex]
  · simp [List.getElem?_map, he, rowRecord, hr]

/-- Concrete exception for the C5 witness. -/
def exnC5 : PyExn := ⟨"ValueError".data, "boom".data⟩

/-- Concrete row computation for the C5 witness: raises on missing cells. -/
def rowFnC5 : CellValue → Except PyExn (String × List Char) := fun c =>
  match c with
  | .na => Except.error exnC5
  | .val _ => Except.ok ("Unknown / No site", [])

/-- Concrete rows for the C5 witness. -/
def rowsC5 : List CellValue := [CellValue.val "a@b.c".data, CellValue.na, CellValue.val "x".data]

/-- Witness for C5: the middle row raises and is recorded as an error with
detail "ValueError: boom" while its neighbours keep empty details. -/
theorem process_dataframe_error_rows_witness :
    rowsC5[1]? = some CellValue.na ∧
      (process_dataframe rowFnC5 rowsC5).1[1]? = some "Error" ∧
      (process_dataframe rowFnC5 rowsC5).2.1[1]? = some [] ∧
      (process_dataframe rowFnC5 rowsC5).2.2[1]? = some (exnDetail exnC5) ∧
      exnDetail exnC5 ≠ [] ∧
      (process_dataframe rowFnC5 rowsC5).2.2[0]? = some [] ∧
      (process_dataframe rowFnC5 rowsC5).2.2[2]? = some [] := by
  have h := process_dataframe_error_rows rowFnC5 rowsC5 1 CellValue.na (by decide)
  obtain ⟨h1, _, _⟩ := h
  obtain ⟨ha, hb, hc, hd⟩ := h1 exnC5 (by rfl)
  exact ⟨by decide, ha, hb, hc, hd, by decide, by decide⟩

/-! ### Claim C9 -/

theorem tryUrls_url_eq (fetch : List Char → Option PyResponse) :
    ∀ (urls : List (List Char)) (u : Option (List Char)) (r : PyResponse),
      tryUrls fetch urls = (u, some r) → u = r.url := by
  intro urls
  induction urls with
  | nil =>
    intro u r h
    exact absurd h (by simp [tryUrls])
  | cons v rest ih =>
    intro u r h
    unfold tryUrls at h
    revert h
    cases hf : fetch v with
    | none =>
      dsimp only
      intro h
      exact ih u r h
    | some resp =>
      dsimp only
      by_cases hc : 200 ≤ resp.statusCode ∧ resp.statusCode < 400 ∧ resp.text ≠ none
      · rw [if_pos hc]
        intro h
        obtain ⟨h1, h2⟩ := Prod.mk.injEq .. ▸ h
        cases Option.some.inj h2
        exact h1.symm
      · rw [if_neg hc]
        intro h
        exact ih u r h

theorem guess_url_eq (fetch : List Char → Option PyResponse) (d : List Char)
    (u : Option (List Char)) (r : PyResponse)
    (h : guess_website_url fetch d = (u, some r)) : u = r.url := by
  unfold guess_website_url at h
  by_cases hd : d = []
  · rw [if_pos hd] at h
    exact absurd h (by simp)
  · rw [if_neg hd] at h
    exact tryUrls_url_eq fetch _ u r h

theorem detect_cms_row_cases (fetch : List Char → Option PyResponse) (e : CellValue) :
    detect_cms_for_email_with_url fetch e = ("No domain / Generic email", []) ∨
      detect_cms_for_email_with_url fetch e = ("Unknown / No site", []) ∨
      (∃ d url resp, extract_domain_from_email (emailStrOfCell e) = some d ∧
        guess_website_url fetch d = (some url, some resp) ∧ resp.url = some url ∧
        detect_cms_for_email_with_url fetch e =
          (detect_cms_from_response (some resp), url)) := by
  unfold detect_cms_for_email_with_url
  cases hx : extract_domain_from_email (emailStrOfCell e) with
  | none => exact Or.inl rfl
  | some dom =>
    dsimp only
    rcases hg : guess_website_url fetch dom with ⟨u, rp⟩
    cases u with
    | none =>
      cases rp with
      | none => exact Or.inr (Or.inl rfl)
      | some resp => exact Or.inr (Or.inl rfl)
    | some url =>
      cases rp with
      | none => exact Or.inr (Or.inl rfl)
      | some resp =>
        refine Or.inr (Or.inr ⟨dom, url, resp, rfl, hg, ?_, rfl⟩)
        exact (guess_url_eq fetch dom (some url) resp hg).symm

/-- C9: the recorded detected url is non-empty only when a probe result was
obtained: a row labelled "No domain / Generic email", "Unknown / No site",
or "Error" carries the empty url, and any other label carries exactly the
probe's final post-redirect URL (`resp.url`). -/
theorem detected_url_invariant (fetch : List Char → Option PyResponse) (e : CellValue) :
    ((detect_cms_for_email_with_url fetch e).1 = "No domain / Generic email" →
      (detect_cms_for_email_with_url fetch e).2 = []) ∧
      ((detect_cms_for_email_with_url fetch e).1 = "Unknown / No site" →
        (detect_cms_for_email_with_url fetch e).2 = []) ∧
      ((detect_cms_for_email_with_url fetch e).1 ≠ "No domain / Generic email" →
        (detect_cms_for_email_with_url fetch e).1 ≠ "Unknown / No site" →
        ∃ d resp, extract_domain_from_email (emailStrOfCell e) = some d ∧
          guess_website_url fetch d =
            (some (detect_cms_for_email_with_url fetch e).2, some resp) ∧
          resp.url = some (detect_cms_for_email_with_url fetch e).2) ∧
      (∀ (rowFn : CellValue → Except PyExn (String × List Char)) (ex : PyExn),
        rowFn e = Except.error ex → (rowRecord rowFn e).2.1 = []) := by
  refine ⟨?_, ?_, ?_, fun rowFn ex hex => by simp [rowRecord, hex]⟩
  · rcases detect_cms_row_cases fetch e with h | h | ⟨d, url, resp, hx, hg, hu, h⟩
    · rw [h]; intro _; rfl
    · rw [h]; intro h1; exact absurd h1 (by decide)
    · rw [h]; intro h1; exact absurd h1 (detect_cms_some_ne_nodomain resp)
  · rcases detect_cms_row_cases fetch e with h | h | ⟨d, url, resp, hx, hg, hu, h⟩
    · rw [h]; intro h1; exact absurd h1 (by decide)
    · rw [h]; intro _; rfl
    · rw [h]; intro h1; exact absurd h1 (detect_cms_some_ne_nosite resp)
  · rcases detect_cms_row_cases fetch e with h | h | ⟨d, url, resp, hx, hg, hu, h⟩
    · rw [h]; intro h1 _; exact absurd rfl h1
    · rw [h]; intro _ h2; exact absurd rfl h2
    · rw [h]; intro _ _; exact ⟨d, resp, hx, hg, hu⟩

/-- Concrete fetch oracle for the C9 witness. -/
def fetchC9 : List Char → Option PyResponse := fun u =>
  if u = "https://acme-shop.fr".data then
    some ⟨200, some "hello world".data, none, some "https://acme-shop.fr/".data⟩
  else none

/-- Concrete cell for the C9 witness. -/
def cellC9 : CellValue := CellValue.val "info@acme-shop.fr".data

/-- Witness for C9: the row classifies to a non-sentinel label and its
recorded url is exactly the probe's final URL. -/
theorem detected_url_invariant_witness :
    (detect_cms_for_email_with_url fetchC9 cellC9).1 ≠ "No domain / Generic email" ∧
      (∃ d resp, extract_domain_from_email (emailStrOfCell cellC9) = some d ∧
        guess_website_url fetchC9 d =
          (some (detect_cms_for_email_with_url fetchC9 cellC9).2, some resp) ∧
        resp.url = some (detect_cms_for_email_with_url fetchC9 cellC9).2) ∧
      (detect_cms_for_email_with_url fetchC9 cellC9).2 = "https://acme-shop.fr/".data :=
  ⟨by decide, (detected_url_invariant fetchC9 cellC9).2.2.1 (by decide) (by decide), by decide⟩

/-! ### `process_excel` output path -/

/-- The output-path logic of `process_excel` from `bot_eshop_core.py`: an
explicitly supplied output path is returned unchanged; otherwise, when the
lowercased input path ends with ".xlsx", the last five characters are
replaced by "_with_cms.xlsx"; otherwise "_with_cms.xlsx" is appended. -/
def process_excel_output_path (inputPath : List Char) (given : Option (List Char)) :
    List Char :=
  match given with
  | some o => o
  | none =>
    if ".xlsx".data <:+ pyLower inputPath then
      inputPath.take (inputPath.length - 5) ++ "_with_cms.xlsx".data
    else inputPath ++ "_with_cms.xlsx".data

/-! ### Claim C6 -/

/-- C6: for every input path, the output path returned by `process_excel`
(default mode) is a new name distinct from the input: when the input ends
with the recognized extension ".xlsx" (case-insensitively) the suffix
"_with_cms" is inserted before the extension (the written extension being
the lowercase ".xlsx"); otherwise "_with_cms" plus the ".xlsx" extension is
appended to the whole input name. -/
theorem process_excel_output_path_spec (p : List Char) :
    ((".xlsx".data <:+ pyLower p) →
      ∃ stem ext, p = stem ++ ext ∧ pyLower ext = ".xlsx".data ∧
        process_excel_output_path p none = stem ++ "_with_cms".data ++ ".xlsx".data) ∧
      (¬(".xlsx".data <:+ pyLower p) →
        process_excel_output_path p none = p ++ "_with_cms".data ++ ".xlsx".data) ∧
      process_excel_output_path p none ≠ p := by
  have hsplit : "_with_cms.xlsx".data = "_with_cms".data ++ ".xlsx".data := rfl
  have hlen14 : ("_with_cms.xlsx".data).length = 14 := rfl
  refine ⟨fun h => ?_, fun h => ?_, ?_⟩
  · obtain ⟨t, ht⟩ := h
    have hlenp : p.length = t.length + 5 := by
      have hl := congrArg List.length ht
      have h5 : (".xlsx".data).length = 5 := rfl
      simp only [List.length_append, h5, pyLower, List.length_map] at hl
      omega
    refine ⟨p.take (p.length - 5), p.drop (p.length - 5),
      (List.take_append_drop _ _).symm, ?_, ?_⟩
    · have hmap : pyLower (p.drop (p.length - 5)) = (pyLower p).drop (p.length - 5) := by
        simp [pyLower, List.map_drop]
      have ht5 : p.length - 5 = t.length := by omega
      rw [hmap, ← ht, ht5, List.drop_left]
    · simp only [process_excel_output_path]
      rw [if_pos (show ['.', 'x', 'l', 's', 'x'] <:+ pyLower p from ⟨t, ht⟩),
        List.append_assoc]
      rfl
  · simp only [process_excel_output_path]
    rw [if_neg h, List.append_assoc]
    rfl
  · intro heq
    have hl := congrArg List.length heq
    by_cases h : ".xlsx".data <:+ pyLower p
    · have hge : 5 ≤ p.length := by
        have h1 := h.length_le
        have h5 : (".xlsx".data).length = 5 := rfl
        simp only [h5, pyLower, List.length_map] at h1
        exact h1
      simp only [process_excel_output_path, if_pos h, List.length_append,
        List.length_take, hlen14] at hl
      omega
    · simp only [process_excel_output_path, if_neg h, List.length_append, hlen14] at hl
      omega

/-- Witness for C6 on the recognized-extension path "clients.xlsx" and the
unrecognized-extension path "clients.csv". -/
theorem process_excel_output_path_spec_witness :
    (".xlsx".data <:+ pyLower "clients.xlsx".data) ∧
      (∃ stem ext, "clients.xlsx".data = stem ++ ext ∧ pyLower ext = ".xlsx".data ∧
        process_excel_output_path "clients.xlsx".data none =
          stem ++ "_with_cms".data ++ ".xlsx".data) ∧
      process_excel_output_path "clients.xlsx".data none = "clients_with_cms.xlsx".data ∧
      process_excel_output_path "clients.csv".data none = "clients.csv_with_cms.xlsx".data :=
  ⟨by decide, (process_excel_output_path_spec "clients.xlsx".data).1 (by decide),
    by decide, by decide⟩
